import Mathlib

/-!
Verification of the LINE healthcare chatbot webhook pipeline
(`src/python-serverless/main.py`, class `LineHealthcareChatbot`).

The Python source is shallowly embedded below: bytes are `Nat` (with explicit
`% 2 ^ 32` truncation where hashlib performs 32-bit arithmetic), Python `str`
is Lean `String`, dictionaries are association lists, and the external
collaborators (the Workers AI client, the outbound LINE client, and the static
knowledge base) are parameters or oracle inputs, exactly as the spec classes
them as external. Exceptions raised inside the message-processing `try` block
are modelled by an explicit oracle flag, mirroring the `except Exception`
control flow of `_process_healthcare_message`.
-/

namespace LineBot

/-! ### SHA-256 (model of `hashlib.sha256`)

Standard FIPS 180-4 SHA-256 over byte lists; words are `Nat` truncated to
32 bits. -/

/-- Truncate to a 32-bit word. -/
def w32 (n : Nat) : Nat := n % 4294967296

/-- 32-bit right rotation. -/
def rotr (n x : Nat) : Nat := w32 ((x >>> n) ||| (x <<< (32 - n)))

/-- SHA-256 message-schedule sigma-0. -/
def smallS0 (x : Nat) : Nat := (rotr 7 x) ^^^ (rotr 18 x) ^^^ (x >>> 3)

/-- SHA-256 message-schedule sigma-1. -/
def smallS1 (x : Nat) : Nat := (rotr 17 x) ^^^ (rotr 19 x) ^^^ (x >>> 10)

/-- SHA-256 compression Sigma-0. -/
def bigS0 (x : Nat) : Nat := (rotr 2 x) ^^^ (rotr 13 x) ^^^ (rotr 22 x)

/-- SHA-256 compression Sigma-1. -/
def bigS1 (x : Nat) : Nat := (rotr 6 x) ^^^ (rotr 11 x) ^^^ (rotr 25 x)

/-- SHA-256 choice function. -/
def chFn (x y z : Nat) : Nat := (x &&& y) ^^^ ((x ^^^ 4294967295) &&& z)

/-- SHA-256 majority function. -/
def majFn (x y z : Nat) : Nat := (x &&& y) ^^^ (x &&& z) ^^^ (y &&& z)

/-- The 64 SHA-256 round constants. -/
def shaK : List Nat :=
  [1116352408, 1899447441, 3049323471, 3921009573,
   961987163, 1508970993, 2453635748, 2870763221,
   3624381080, 310598401, 607225278, 1426881987,
   1925078388, 2162078206, 2614888103, 3248222580,
   3835390401, 4022224774, 264347078, 604807628,
   770255983, 1249150122, 1555081692, 1996064986,
   2554220882, 2821834349, 2952996808, 3210313671,
   3336571891, 3584528711, 113926993, 338241895,
   666307205, 773529912, 1294757372, 1396182291,
   1695183700, 1986661051, 2177026350, 2456956037,
   2730485921, 2820302411, 3259730800, 3345764771,
   3516065817, 3600352804, 4094571909, 275423344,
   430227734, 506948616, 659060556, 883997877,
   958139571, 1322822218, 1537002063, 1747873779,
   1955562222, 2024104815, 2227730452, 2361852424,
   2428436474, 2756734187, 3204031479, 3329325298]

/-- Working state of the SHA-256 compression function. -/
structure Sha8 where
  a : Nat
  b : Nat
  c : Nat
  d : Nat
  e : Nat
  f : Nat
  g : Nat
  h : Nat

/-- SHA-256 initial hash value. -/
def shaInit : Sha8 :=
  ⟨1779033703, 3144134277, 1013904242, 2773480762, 1359893119, 2600822924, 528734635, 1541459225⟩

/-- Big-endian 4-byte encoding of a 32-bit word. -/
def be32 (n : Nat) : List Nat := [(n >>> 24) % 256, (n >>> 16) % 256, (n >>> 8) % 256, n % 256]

/-- Big-endian 8-byte encoding of a 64-bit length field. -/
def be64 (n : Nat) : List Nat :=
  [(n >>> 56) % 256, (n >>> 48) % 256, (n >>> 40) % 256, (n >>> 32) % 256,
   (n >>> 24) % 256, (n >>> 16) % 256, (n >>> 8) % 256, n % 256]

/-- Group bytes into big-endian 32-bit words. -/
def bytesToWords : List Nat → List Nat
  | b0 :: b1 :: b2 :: b3 :: rest =>
      ((b0 <<< 24) + (b1 <<< 16) + (b2 <<< 8) + b3) :: bytesToWords rest
  | _ => []

/-- Extend 16 schedule words to the full 64-entry message schedule. -/
def extendW (w : List Nat) : List Nat :=
  (List.range 48).foldl
    (fun acc _ =>
      let n := acc.length
      acc ++ [w32 (smallS1 (acc.getD (n - 2) 0) + acc.getD (n - 7) 0 +
        smallS0 (acc.getD (n - 15) 0) + acc.getD (n - 16) 0)])
    w

/-- One SHA-256 compression round; the pair carries the round constant and
schedule word. -/
def shaRound (st : Sha8) (kw : Nat × Nat) : Sha8 :=
  let t1 := w32 (st.h + bigS1 st.e + chFn st.e st.f st.g + kw.1 + kw.2)
  let t2 := w32 (bigS0 st.a + majFn st.a st.b st.c)
  ⟨w32 (t1 + t2), st.a, st.b, st.c, w32 (st.d + t1), st.e, st.f, st.g⟩

/-- Process one 64-byte block. -/
def shaBlock (st : Sha8) (block : List Nat) : Sha8 :=
  let ws := extendW (bytesToWords block)
  let r := (shaK.zip ws).foldl shaRound st
  ⟨w32 (st.a + r.a), w32 (st.b + r.b), w32 (st.c + r.c), w32 (st.d + r.d),
   w32 (st.e + r.e), w32 (st.f + r.f), w32 (st.g + r.g), w32 (st.h + r.h)⟩

/-- Split a byte list into 64-byte chunks; the fuel argument makes the
recursion structural (each step strips at least one byte, so fuel equal to the
length never runs out and the zero-fuel branch is unreachable). -/
def chunks64Aux : Nat → List Nat → List (List Nat)
  | _, [] => []
  | 0, _ :: _ => []
  | fuel + 1, x :: rest => (x :: rest).take 64 :: chunks64Aux fuel ((x :: rest).drop 64)

/-- Split a byte list into 64-byte chunks. -/
def chunks64 (l : List Nat) : List (List Nat) := chunks64Aux l.length l

/-- SHA-256 padding: `0x80`, zeros to 56 mod 64, then the 64-bit bit length. -/
def sha256pad (msg : List Nat) : List Nat :=
  msg ++ 0x80 :: (List.replicate ((119 - msg.length % 64) % 64) 0 ++ be64 (8 * msg.length))

/-- SHA-256 digest (32 bytes) of a byte list. -/
def sha256 (msg : List Nat) : List Nat :=
  let fin := (chunks64 (sha256pad msg)).foldl shaBlock shaInit
  be32 fin.a ++ be32 fin.b ++ be32 fin.c ++ be32 fin.d ++
    be32 fin.e ++ be32 fin.f ++ be32 fin.g ++ be32 fin.h

/-! ### HMAC-SHA256 (model of `hmac.new(key, msg, hashlib.sha256).digest()`) -/

/-- HMAC-SHA256 of a message under a key, RFC 2104 with the 64-byte block size. -/
def hmacSha256 (key msg : List Nat) : List Nat :=
  let k0 := if 64 < key.length then sha256 key else key
  let kpad := k0 ++ List.replicate (64 - k0.length) 0
  sha256 ((kpad.map (fun b => b ^^^ 0x5c)) ++ sha256 ((kpad.map (fun b => b ^^^ 0x36)) ++ msg))

/-! ### UTF-8 and base64 (models of `str.encode('utf-8')` and `base64.b64encode`) -/

/-- UTF-8 encoding of a single character. -/
def utf8Char (c : Char) : List Nat :=
  let n := c.toNat
  if n < 0x80 then [n]
  else if n < 0x800 then [0xC0 ||| (n >>> 6), 0x80 ||| (n &&& 0x3F)]
  else if n < 0x10000 then
    [0xE0 ||| (n >>> 12), 0x80 ||| ((n >>> 6) &&& 0x3F), 0x80 ||| (n &&& 0x3F)]
  else
    [0xF0 ||| (n >>> 18), 0x80 ||| ((n >>> 12) &&& 0x3F),
     0x80 ||| ((n >>> 6) &&& 0x3F), 0x80 ||| (n &&& 0x3F)]

/-- UTF-8 byte encoding of a string. -/
def utf8Encode (s : String) : List Nat := (s.data.map utf8Char).flatten

/-- The base64 alphabet. -/
def b64Chars : List Char :=
  "ABCDEFGHIJKLMNOPQRSTUVWXYZabcdefghijklmnopqrstuvwxyz0123456789+/".data

/-- One base64 digit. -/
def b64Digit (n : Nat) : Char := b64Chars.getD n 'A'

/-- Base64 encoding of a byte list, 3 bytes to 4 digits with `=` padding. -/
def base64Chunks : List Nat → List Char
  | [] => []
  | [b1] => [b64Digit (b1 >>> 2), b64Digit ((b1 % 4) <<< 4), '=', '=']
  | [b1, b2] =>
      [b64Digit (b1 >>> 2), b64Digit (((b1 % 4) <<< 4) ||| (b2 >>> 4)),
       b64Digit ((b2 % 16) <<< 2), '=']
  | b1 :: b2 :: b3 :: rest =>
      b64Digit (b1 >>> 2) :: b64Digit (((b1 % 4) <<< 4) ||| (b2 >>> 4)) ::
        b64Digit (((b2 % 16) <<< 2) ||| (b3 >>> 6)) :: b64Digit (b3 % 64) :: base64Chunks rest

/-- Base64 encoding of a byte list as a string, model of `base64.b64encode(...).decode('utf-8')`. -/
def base64Encode (bs : List Nat) : String := String.mk (base64Chunks bs)

/-! ### Signature verifier (`_verify_signature`)

The source computes `base64(HMAC-SHA256(channel_secret, body))` over the
UTF-8 encodings and compares with `hmac.compare_digest`. On `str` inputs
`compare_digest` is equality (a non-ASCII `signature` raises `TypeError`,
which the `except` turns into `False`; since the expected value is ASCII
base64, that coincides with plain equality). -/

/-- Model of `LineHealthcareChatbot._verify_signature`. -/
def verifySignature (channelSecret body signature : String) : Bool :=
  signature == base64Encode (hmacSha256 (utf8Encode channelSecret) (utf8Encode body))

/-! ### Configuration (`LineHealthcareChatbot.__init__`)

Only the fields the verified claims depend on are carried; `env.get(..., '')`
defaults mean a missing variable is the empty string. -/

/-- Configuration read from the worker environment. -/
structure Env where
  channelSecret : String
  channelAccessToken : String
  environment : String
deriving DecidableEq

/-! ### Intent classifier (`_classify_healthcare_intent`) -/

/-- HIV keyword set from `_classify_healthcare_intent`. -/
def hivKeywords : List (List Char) := ["hiv", "aids", "เอชไอวี", "เอดส์"].map String.data

/-- PrEP keyword set from `_classify_healthcare_intent`. -/
def prepKeywords : List (List Char) :=
  ["prep", "pre-exposure", "เพรพ", "การป้องกันก่อนสัมผัส"].map String.data

/-- STD keyword set from `_classify_healthcare_intent`. -/
def stdKeywords : List (List Char) :=
  ["std", "sti", "sexually transmitted", "โรคติดต่อทางเพศ", "โรคกามโรค"].map String.data

/-- Python `any(keyword in lower_text for keyword in kws)`: some keyword occurs
as a contiguous substring. -/
def keywordHit (kws : List (List Char)) (lowerText : List Char) : Bool :=
  kws.any (fun k => decide (k <:+: lowerText))

/-- Model of `_classify_healthcare_intent`. `Char.toLower` agrees with Python
`str.lower()` on the ASCII and Thai alphabets the keyword sets draw from
(Thai has no case). -/
def classifyHealthcareIntent (text : String) : String :=
  let lowerText := text.data.map Char.toLower
  if keywordHit hivKeywords lowerText then "hiv"
  else if keywordHit prepKeywords lowerText then "prep"
  else if keywordHit stdKeywords lowerText then "std"
  else "general"

/-! ### Language detector (`_detect_language`) -/

/-- Membership in the Thai Unicode block, the regex class `[฀-๿]`. -/
def isThaiChar (c : Char) : Bool := decide (0xE00 ≤ c.toNat ∧ c.toNat ≤ 0xE7F)

/-- Model of `_detect_language`: Thai if any character is in the Thai block. -/
def detectLanguage (text : String) : String :=
  if text.data.any isThaiChar then "th" else "en"

/-! ### Response composer (`_format_healthcare_response`) and fixed texts -/

/-- The per-language medical disclaimer appended by `_format_healthcare_response`. -/
def disclaimerFor (language : String) : String :=
  if language == "th" then
    "\n\n⚠️ ข้อมูลนี้เพื่อการศึกษาเท่านั้น กรุณาปรึกษาแพทย์เสมอสำหรับคำแนะนำทางการแพทย์"
  else
    "\n\n⚠️ This information is for educational purposes only. Always consult healthcare professionals for medical advice."

/-- The per-language resource-list block appended by `_format_healthcare_response`
for the specific healthcare intents. -/
def resourcesFor (language : String) : String :=
  if language == "th" then
    "\n\n🏥 ทรัพยากรเพิ่มเติม:\n• กรมควบคุมโรค กระทรวงสาธารณสุข\n• มูลนิธิ ACCESS\n• โรงพยาบาลใกล้บ้าน"
  else
    "\n\n🏥 Additional Resources:\n• Department of Disease Control, Thailand\n• ACCESS Foundation\n• Local healthcare providers"

/-- The spec's per-language "resource-list marker": the heading line unique to
the resource block. -/
def markerFor (language : String) : String :=
  if language == "th" then "ทรัพยากรเพิ่มเติม" else "Additional Resources"

/-- Model of `_format_healthcare_response`. -/
def formatHealthcareResponse (response intent language : String) : String :=
  let disclaimer := disclaimerFor language
  let response1 :=
    if intent ∈ ["hiv", "prep", "std"] then response ++ resourcesFor language else response
  response1 ++ disclaimer

/-- Model of `_get_fallback_response`. -/
def getFallbackResponse (language : String) : String :=
  if language == "th" then
    "เสียใจด้วย ขณะนี้ระบบมีปัญหา กรุณาลองใหม่อีกครั้งหรือติดต่อเจ้าหน้าที่ของเรา\n\n⚠️ สำหรับปัญหาเร่งด่วนทางการแพทย์ กรุณาติดต่อแพทย์หรือโรงพยาบาลทันที"
  else
    "I apologize, our system is currently experiencing issues. Please try again or contact our support team.\n\n⚠️ For medical emergencies, please contact healthcare providers immediately."

/-- The fixed bilingual welcome text of `_send_welcome_message`. -/
def welcomeMessage : String :=
  "🏥 สวัสดีครับ/ค่ะ! ยินดีต้อนรับสู่ Bloodplusfight Healthcare Assistant\n\nฉันสามารถช่วยให้ข้อมูลเกี่ยวกับ:\n• เอชไอวี (HIV) และการป้องกัน\n• PrEP (การป้องกันก่อนสัมผัส)\n• โรคติดต่อทางเพศสัมพันธ์ (STDs/STIs)\n• คำแนะนำด้านสุขภาพทั่วไป\n\n🌟 Hello! Welcome to Bloodplusfight Healthcare Assistant\n\nI can help with information about:\n• HIV and prevention\n• PrEP (Pre-exposure prophylaxis)\n• STDs/STIs\n• General health guidance\n\n⚠️ ข้อมูลนี้เพื่อการศึกษาเท่านั้น กรุณาปรึกษาแพทย์เสมอ\n⚠️ This information is for educational purposes only. Always consult healthcare professionals."

/-! ### Event dispatcher (`_process_healthcare_message`, `_send_welcome_message`)

External behavior is supplied by oracles: `aiOutcome` is the AI fallback
client's result inside `_generate_ai_response` (`some t` for a successful
generation returning `t`, `none` when the call fails or errors, in which case
that method itself returns the fixed fallback text), and `raiseInTry` models an
exception escaping some step of the `try` block before the outbound dispatch,
which the `except Exception` handler absorbs by sending the fallback text.
`_send_line_message` swallows its own errors, so a dispatch is recorded as one
`SendAttempt` regardless of delivery outcome. -/

/-- One call to `_send_line_message`: an outbound reply attempt. -/
structure SendAttempt where
  replyToken : String
  text : String
deriving DecidableEq

/-- Oracle for the external effects while processing a single event. -/
structure EventOracle where
  aiOutcome : Option String
  raiseInTry : Bool
deriving DecidableEq

/-- An inbound event as discriminated by the webhook loop: `message` is an
event with `type == 'message'` and `message.type == 'text'`; `follow` has
`type == 'follow'`; `other` is any other well-formed event, which the loop
skips. -/
inductive LineEvent where
  | message (text userId replyToken : String)
  | follow (replyToken : String)
  | other
deriving DecidableEq

/-- Model of `_generate_ai_response`: the AI result on success, else the fixed
fallback text (both the non-success branch and the `except` branch). -/
def generateAiResponse (aiOutcome : Option String) (language : String) : String :=
  match aiOutcome with
  | some t => t
  | none => getFallbackResponse language

/-- Model of `_process_healthcare_message`. `kb` is the static knowledge base
`healthcare_responses` (an external content store per the spec), whose keys are
exactly `hiv`, `prep`, `std`, so the guard
`intent in self.healthcare_responses and intent != 'general'` is membership in
that key list. Sends happen only under a truthy `channel_access_token`. -/
def processHealthcareMessage (env : Env) (kb : String → String → String)
    (o : EventOracle) (userMessage replyToken : String) : List SendAttempt :=
  if o.raiseInTry then
    let fallbackResponse := getFallbackResponse (detectLanguage userMessage)
    if env.channelAccessToken ≠ "" then [⟨replyToken, fallbackResponse⟩] else []
  else
    let intent := classifyHealthcareIntent userMessage
    let language := detectLanguage userMessage
    let response :=
      if intent ∈ ["hiv", "prep", "std"] then kb intent language
      else generateAiResponse o.aiOutcome language
    let formattedResponse := formatHealthcareResponse response intent language
    if env.channelAccessToken ≠ "" then [⟨replyToken, formattedResponse⟩] else []

/-- Model of `_send_welcome_message`. -/
def sendWelcomeMessage (env : Env) (replyToken : String) : List SendAttempt :=
  if env.channelAccessToken ≠ "" then [⟨replyToken, welcomeMessage⟩] else []

/-! ### Webhook router (`_handle_webhook`) -/

/-- An HTTP response as returned by the handler (status and body; the CORS
headers are constant and omitted). -/
structure HttpResponse where
  statusCode : Nat
  body : String
deriving DecidableEq

/-- Observable outcome of one webhook request: the HTTP response, the trace of
outbound reply attempts, the trace of events handed to the event dispatcher in
order, and whether `json.loads` was reached. -/
structure WebhookResult where
  response : HttpResponse
  sends : List SendAttempt
  dispatched : List LineEvent
  parseAttempted : Bool
deriving DecidableEq

/-- Python `dict.get(key, default)` over a map with unique keys. -/
def dictGet (d : List (String × String)) (key dflt : String) : String :=
  match d.find? (fun p => p.1 == key) with
  | some p => p.2
  | none => dflt

/-- The signature gate of `_handle_webhook`: with a truthy `channel_secret`,
reject when the `x-line-signature` entry is missing/empty or fails
verification. -/
def webhookRejectsSignature (env : Env) (rawBody : String)
    (headers : List (String × String)) : Bool :=
  if env.channelSecret ≠ "" then
    let signature := dictGet headers "x-line-signature" ""
    signature == "" || !(verifySignature env.channelSecret rawBody signature)
  else false

/-- One iteration of the webhook event loop: returns the reply attempts made
for the event and the dispatcher-invocation trace entry. -/
def dispatchOne (env : Env) (kb : String → String → String)
    (eo : LineEvent × EventOracle) : List SendAttempt × List LineEvent :=
  match eo.1 with
  | .message text _userId replyToken =>
      (processHealthcareMessage env kb eo.2 text replyToken, [eo.1])
  | .follow replyToken => (sendWelcomeMessage env replyToken, [eo.1])
  | .other => ([], [])

/-- The webhook event loop, sequential and in envelope order; each event is
paired with the oracle describing the external behavior during its
processing. -/
def runEvents (env : Env) (kb : String → String → String) :
    List (LineEvent × EventOracle) → List SendAttempt × List LineEvent
  | [] => ([], [])
  | eo :: rest =>
      let hd := dispatchOne env kb eo
      let tl := runEvents env kb rest
      (hd.1 ++ tl.1, hd.2 ++ tl.2)

/-- Body of the 400 response, `json.dumps(\x7b'error': 'Invalid signature'\x7d)`. -/
def jsonInvalidSignature : String := "\x7b\"error\": \"Invalid signature\"\x7d"

/-- Body of the 500 response, `json.dumps(\x7b'error': 'Webhook processing failed'\x7d)`. -/
def jsonWebhookFailed : String := "\x7b\"error\": \"Webhook processing failed\"\x7d"

/-- Body of the 200 response, `json.dumps(\x7b'status': 'ok'\x7d)`. -/
def jsonStatusOk : String := "\x7b\"status\": \"ok\"\x7d"

/-- Model of `_handle_webhook`. `parsed` is the outcome of `json.loads(body)`
followed by envelope extraction: `none` when the raw body is malformed (the
raised error reaches the handler's `except`, giving the fixed 500), otherwise
the event list (an absent or empty `events` key is `some []`). -/
def handleWebhook (env : Env) (kb : String → String → String) (rawBody : String)
    (parsed : Option (List (LineEvent × EventOracle)))
    (headers : List (String × String)) : WebhookResult :=
  if webhookRejectsSignature env rawBody headers then
    ⟨⟨400, jsonInvalidSignature⟩, [], [], false⟩
  else
    match parsed with
    | none => ⟨⟨500, jsonWebhookFailed⟩, [], [], true⟩
    | some events =>
        let r := runEvents env kb events
        ⟨⟨200, jsonStatusOk⟩, r.1, r.2, true⟩

/-- A concrete stand-in content store used by concrete witnesses; the claims
hold for every content store. -/
def kbDefault : String → String → String := fun _ _ => "knowledge base entry"

/-! ### General list lemmas about substring structure -/

/-- A prefix is an infix. -/
theorem infixOfPrefixFact {α : Type} {m l : List α} (h : m <+: l) : m <:+: l := by
  obtain ⟨t, ht⟩ := h
  exact ⟨[], t, ht⟩

/-- A suffix is an infix. -/
theorem infixOfSuffixFact {α : Type} {m l : List α} (h : m <:+ l) : m <:+: l := by
  obtain ⟨s, hs⟩ := h
  exact ⟨s, [], by simpa using hs⟩

/-- An infix of `l` is an infix of `x :: l`. -/
theorem infixConsExtend {α : Type} {m l : List α} (x : α) (h : m <:+: l) : m <:+: x :: l := by
  obtain ⟨s, t, rfl⟩ := h
  exact ⟨x :: s, t, rfl⟩

/-- A suffix of `l` is a suffix of `x :: l`. -/
theorem suffixConsExtend {α : Type} {m l : List α} (x : α) (h : m <:+ l) : m <:+ x :: l := by
  obtain ⟨s, rfl⟩ := h
  exact ⟨x :: s, rfl⟩

/-- An infix of `b` is an infix of `a ++ b`. -/
theorem infixExtendLeft {α : Type} {m b : List α} (a : List α) (h : m <:+: b) :
    m <:+: a ++ b := by
  obtain ⟨s, t, rfl⟩ := h
  exact ⟨a ++ s, t, by simp⟩

/-- An infix of `b` is an infix of `b ++ c`. -/
theorem infixExtendRight {α : Type} {m b : List α} (c : List α) (h : m <:+: b) :
    m <:+: b ++ c := by
  obtain ⟨s, t, rfl⟩ := h
  exact ⟨s, t ++ c, by simp⟩

/-- A prefix of `a ++ b` lies within `a` or spills exactly past it. -/
theorem prefixAppendCases {α : Type} (a : List α) {m b : List α} (h : m <+: a ++ b) :
    m <+: a ∨ ∃ r, m = a ++ r ∧ r <+: b := by
  induction a generalizing m with
  | nil => exact Or.inr ⟨m, rfl, h⟩
  | cons x a ih =>
      cases m with
      | nil => exact Or.inl ⟨x :: a, rfl⟩
      | cons y m =>
          rw [List.cons_append] at h
          rcases List.cons_prefix_cons.mp h with ⟨rfl, hm⟩
          rcases ih hm with h1 | ⟨r, rfl, hr⟩
          · exact Or.inl (List.cons_prefix_cons.mpr ⟨rfl, h1⟩)
          · exact Or.inr ⟨r, by simp, hr⟩

/-- An infix of `x :: l` is a prefix of the whole or an infix of the tail. -/
theorem infixConsCases {α : Type} {m : List α} {x : α} {l : List α} (h : m <:+: x :: l) :
    m <+: x :: l ∨ m <:+: l := by
  obtain ⟨s, t, hst⟩ := h
  cases s with
  | nil => exact Or.inl ⟨t, by simpa using hst⟩
  | cons y s =>
      rw [List.cons_append, List.cons_append] at hst
      injection hst with h1 h2
      exact Or.inr ⟨s, t, h2⟩

/-- An infix of `a ++ b` lies in `a`, lies in `b`, or straddles the boundary,
its tail part being a nonempty prefix of `b`. -/
theorem infixAppendCases {α : Type} (a : List α) {m b : List α} (h : m <:+: a ++ b) :
    m <:+: a ∨ m <:+: b ∨
      ∃ m1 m2, m = m1 ++ m2 ∧ m2 ≠ [] ∧ m1 <:+ a ∧ m2 <+: b := by
  induction a generalizing m with
  | nil => exact Or.inr (Or.inl h)
  | cons x a ih =>
      rcases infixConsCases h with hpre | hinf
      · rcases prefixAppendCases (x :: a) hpre with h1 | ⟨r, rfl, hr⟩
        · exact Or.inl (infixOfPrefixFact h1)
        · cases r with
          | nil => exact Or.inl ⟨[], [], by simp⟩
          | cons z r =>
              exact Or.inr (Or.inr ⟨x :: a, z :: r, rfl, by simp, ⟨[], rfl⟩, hr⟩)
      · rcases ih hinf with h1 | h2 | ⟨m1, m2, heq, hne, hsuf, hpre2⟩
        · exact Or.inl (infixConsExtend x h1)
        · exact Or.inr (Or.inl h2)
        · exact Or.inr (Or.inr ⟨m1, m2, heq, hne, suffixConsExtend x hsuf, hpre2⟩)

/-- A nonempty prefix of a list contains the list's head. -/
theorem prefixHeadMem {α : Type} {m l : List α} {x : α} (h : m <+: l) (hne : m ≠ [])
    (hh : l.head? = some x) : x ∈ m := by
  cases m with
  | nil => exact absurd rfl hne
  | cons y m' =>
      obtain ⟨t, ht⟩ := h
      rw [← ht] at hh
      simp only [List.cons_append, List.head?_cons, Option.some.injEq] at hh
      rw [hh]
      exact List.mem_cons_self x m'

/-- If a marker has no newline, the second block starts with a newline, and the
marker does not occur inside the second block, then any occurrence of the
marker in the concatenation lies wholly in the first block. -/
theorem markerNotCreatedByAppend {marker disc raw : List Char}
    (hnl : '\n' ∉ marker) (hh : disc.head? = some '\n')
    (hnd : ¬ marker <:+: disc) (h : marker <:+: raw ++ disc) : marker <:+: raw := by
  rcases infixAppendCases raw h with h1 | h2 | ⟨m1, m2, heq, hne, _, hpre⟩
  · exact h1
  · exact absurd h2 hnd
  · exfalso
    apply hnl
    rw [heq]
    exact List.mem_append.mpr (Or.inr (prefixHeadMem hpre hne hh))

/-! ### Lemmas about the embedded components -/

/-- `keywordHit` is substring membership of some keyword. -/
theorem keywordHit_iff (kws : List (List Char)) (lowerText : List Char) :
    keywordHit kws lowerText = true ↔ ∃ k ∈ kws, k <:+: lowerText := by
  simp [keywordHit]

/-- The classifier only produces the four topic strings. -/
theorem classify_mem_topics (text : String) :
    classifyHealthcareIntent text = "hiv" ∨ classifyHealthcareIntent text = "prep" ∨
    classifyHealthcareIntent text = "std" ∨ classifyHealthcareIntent text = "general" := by
  by_cases h1 : keywordHit hivKeywords (text.data.map Char.toLower) = true
  · exact Or.inl (by simp [classifyHealthcareIntent, h1])
  by_cases h2 : keywordHit prepKeywords (text.data.map Char.toLower) = true
  · exact Or.inr (Or.inl (by simp [classifyHealthcareIntent, h1, h2]))
  by_cases h3 : keywordHit stdKeywords (text.data.map Char.toLower) = true
  · exact Or.inr (Or.inr (Or.inl (by simp [classifyHealthcareIntent, h1, h2, h3])))
  · exact Or.inr (Or.inr (Or.inr (by simp [classifyHealthcareIntent, h1, h2, h3])))

/-- The language detector only produces `th` or `en`. -/
theorem detect_mem_languages (text : String) :
    detectLanguage text = "th" ∨ detectLanguage text = "en" := by
  by_cases h : text.data.any isThaiChar = true
  · exact Or.inl (by simp [detectLanguage, h])
  · exact Or.inr (by simp [detectLanguage, h])

/-- Composer on a specific healthcare topic: raw answer, resource block,
disclaimer, in that order. -/
theorem format_specific (raw intent language : String)
    (hi : intent ∈ ["hiv", "prep", "std"]) :
    formatHealthcareResponse raw intent language =
      raw ++ resourcesFor language ++ disclaimerFor language := by
  simp [formatHealthcareResponse, hi]

/-- Composer on the general topic: raw answer then disclaimer. -/
theorem format_general (raw language : String) :
    formatHealthcareResponse raw "general" language = raw ++ disclaimerFor language := by
  simp [formatHealthcareResponse]

/-- The marker string contains no newline. -/
theorem marker_no_newline (language : String) : '\n' ∉ (markerFor language).data := by
  by_cases h : language == "th" <;> simp [markerFor, h]

/-- The disclaimer block starts with a newline. -/
theorem disclaimer_head (language : String) :
    (disclaimerFor language).data.head? = some '\n' := by
  by_cases h : language == "th" <;> simp [disclaimerFor, h]

set_option maxRecDepth 100000 in
/-- The marker does not occur inside the disclaimer block. -/
theorem marker_not_in_disclaimer (language : String) :
    ¬ (markerFor language).data <:+: (disclaimerFor language).data := by
  by_cases h : language == "th" <;> simp [markerFor, disclaimerFor, h] <;> decide

set_option maxRecDepth 100000 in
/-- The marker occurs inside the resource block of the same language. -/
theorem marker_in_resources (language : String) :
    (markerFor language).data <:+: (resourcesFor language).data := by
  by_cases h : language == "th" <;> simp [markerFor, resourcesFor, h] <;> decide

/-- With a configured access token, the dispatcher makes exactly one reply
attempt per text message event, on the normal and on the exception path alike. -/
theorem processMessage_sends_one (env : Env) (kb : String → String → String)
    (o : EventOracle) (userMessage replyToken : String)
    (htoken : env.channelAccessToken ≠ "") :
    (processHealthcareMessage env kb o userMessage replyToken).length = 1 := by
  unfold processHealthcareMessage
  by_cases hr : o.raiseInTry = true <;> simp [hr, htoken]

/-- Without an access token, the dispatcher makes no reply attempt for a text
message event. -/
theorem processMessage_no_token (env : Env) (kb : String → String → String)
    (o : EventOracle) (userMessage replyToken : String)
    (htoken : env.channelAccessToken = "") :
    processHealthcareMessage env kb o userMessage replyToken = [] := by
  unfold processHealthcareMessage
  by_cases hr : o.raiseInTry = true <;> simp [hr, htoken]

/-- Without an access token, no welcome reply attempt is made. -/
theorem welcome_no_token (env : Env) (replyToken : String)
    (htoken : env.channelAccessToken = "") :
    sendWelcomeMessage env replyToken = [] := by
  simp [sendWelcomeMessage, htoken]

/-- The event loop's reply attempts are the per-event attempts concatenated in
envelope order. -/
theorem runEvents_sends (env : Env) (kb : String → String → String)
    (events : List (LineEvent × EventOracle)) :
    (runEvents env kb events).1 =
      (events.map (fun eo => (dispatchOne env kb eo).1)).flatten := by
  induction events with
  | nil => rfl
  | cons eo rest ih => simp [runEvents, ih]

/-- On an envelope whose events are all message or follow events, the
dispatcher is invoked once per event, in envelope order. -/
theorem runEvents_dispatched (env : Env) (kb : String → String → String)
    (events : List (LineEvent × EventOracle))
    (hwf : ∀ eo ∈ events, eo.1 ≠ LineEvent.other) :
    (runEvents env kb events).2 = events.map Prod.fst := by
  induction events with
  | nil => rfl
  | cons eo rest ih =>
      have hd : (dispatchOne env kb eo).2 = [eo.1] := by
        have := hwf eo (List.mem_cons_self eo rest)
        cases h : eo.1 with
        | message t u r => simp [dispatchOne, h]
        | follow r => simp [dispatchOne, h]
        | other => exact absurd h this
      have ht : ∀ eo' ∈ rest, eo'.1 ≠ LineEvent.other :=
        fun eo' h' => hwf eo' (List.mem_cons_of_mem eo h')
      simp [runEvents, hd, ih ht]

/-- The 400 rejection of the webhook route: configured secret with a missing or
failing signature yields status 400, no parse, no dispatch, no sends. -/
theorem handleWebhook_400 (env : Env) (kb : String → String → String) (rawBody : String)
    (parsed : Option (List (LineEvent × EventOracle))) (headers : List (String × String))
    (hsecret : env.channelSecret ≠ "")
    (hfail : dictGet headers "x-line-signature" "" = "" ∨
      verifySignature env.channelSecret rawBody (dictGet headers "x-line-signature" "") = false) :
    handleWebhook env kb rawBody parsed headers = ⟨⟨400, jsonInvalidSignature⟩, [], [], false⟩ := by
  have hrej : webhookRejectsSignature env rawBody headers = true := by
    rcases hfail with hf | hf <;> simp [webhookRejectsSignature, hsecret, hf]
  simp [handleWebhook, hrej]

/-- SHA-256 digests are nonempty. -/
theorem sha256_ne_nil (msg : List Nat) : sha256 msg ≠ [] := by
  simp [sha256, be32]

/-- HMAC-SHA256 digests are nonempty. -/
theorem hmac_ne_nil (key msg : List Nat) : hmacSha256 key msg ≠ [] := sha256_ne_nil _

/-- Base64 of a nonempty byte list is nonempty. -/
theorem base64Chunks_ne_nil : ∀ {bs : List Nat}, bs ≠ [] → base64Chunks bs ≠ []
  | [], h => absurd rfl h
  | [_], _ => by simp [base64Chunks]
  | [_, _], _ => by simp [base64Chunks]
  | _ :: _ :: _ :: _, _ => by simp [base64Chunks]

/-- The expected base64 HMAC signature is never the empty string. -/
theorem base64_hmac_ne_empty (key msg : List Nat) : base64Encode (hmacSha256 key msg) ≠ "" :=
  fun hs => base64Chunks_ne_nil (hmac_ne_nil key msg) (congrArg String.data hs)

set_option maxRecDepth 1000000 in
/-- The embedded SHA-256 agrees with the FIPS 180-4 test vector for `abc`. -/
theorem sha256_vector_abc :
    sha256 [0x61, 0x62, 0x63] =
      [0xba, 0x78, 0x16, 0xbf, 0x8f, 0x01, 0xcf, 0xea, 0x41, 0x41, 0x40, 0xde, 0x5d, 0xae,
       0x22, 0x23, 0xb0, 0x03, 0x61, 0xa3, 0x96, 0x17, 0x7a, 0x9c, 0xb4, 0x10, 0xff, 0x61,
       0xf2, 0x00, 0x15, 0xad] := by decide

set_option maxRecDepth 1000000 in
/-- The embedded base64-of-HMAC pipeline agrees with the reference value of
`base64.b64encode(hmac.new(b"testsecret", b"body", sha256).digest())`. -/
theorem hmac_base64_vector :
    base64Encode (hmacSha256 (utf8Encode "testsecret") (utf8Encode "body")) =
      "9OJkgEae6jBbjGpRroU7Qga+LtaYCrrIyNLMdcGunTs=" := by decide

/-- Negative direction of `keywordHit_iff`. -/
theorem keywordHit_false (kws : List (List Char)) (lowerText : List Char)
    (h : ¬ ∃ k ∈ kws, k <:+: lowerText) : keywordHit kws lowerText = false := by
  rw [Bool.eq_false_iff]
  exact fun hc => h ((keywordHit_iff _ _).mp hc)

/-! ### The claims -/

/-- C3: with a non-empty configured secret, `_verify_signature(body, sig)`
returns `True` if and only if `sig` equals the base64 encoding of
HMAC-SHA256(secret, body); for every other `sig`, including a malformed or
non-decodable signature header, it returns `False`. The embedding is a total
function into `Bool`, reflecting that the method never throws (its `except`
clause converts the one possible `compare_digest` `TypeError` into `False`,
which coincides with the inequality of the strings). -/
theorem C3_verify_signature_iff (secret body signature : String)
    (_hsecret : secret ≠ "") :
    verifySignature secret body signature = true ↔
      signature = base64Encode (hmacSha256 (utf8Encode secret) (utf8Encode body)) := by
  simp [verifySignature]

/-- Witness for C3 at a concrete secret and body and the matching signature. -/
theorem C3_witness :
    ("testsecret" : String) ≠ "" ∧
    (verifySignature "testsecret" "body"
        (base64Encode (hmacSha256 (utf8Encode "testsecret") (utf8Encode "body"))) = true ↔
      base64Encode (hmacSha256 (utf8Encode "testsecret") (utf8Encode "body")) =
        base64Encode (hmacSha256 (utf8Encode "testsecret") (utf8Encode "body"))) :=
  ⟨by decide, C3_verify_signature_iff "testsecret" "body" _ (by decide)⟩

/-- C4: the classifier lower-cases the input and tests case-insensitive
substring membership of the fixed keyword sets in the precedence order HIV,
then PrEP, then STD, returning the first set with a hit; with no hit in any
set it returns `general`, and an HIV hit wins regardless of PrEP or STD
hits. -/
theorem C4_classifier_first_match (text : String) :
    ((∃ k ∈ hivKeywords, k <:+: text.data.map Char.toLower) →
        classifyHealthcareIntent text = "hiv") ∧
    (¬ (∃ k ∈ hivKeywords, k <:+: text.data.map Char.toLower) →
      (∃ k ∈ prepKeywords, k <:+: text.data.map Char.toLower) →
        classifyHealthcareIntent text = "prep") ∧
    (¬ (∃ k ∈ hivKeywords, k <:+: text.data.map Char.toLower) →
      ¬ (∃ k ∈ prepKeywords, k <:+: text.data.map Char.toLower) →
      (∃ k ∈ stdKeywords, k <:+: text.data.map Char.toLower) →
        classifyHealthcareIntent text = "std") ∧
    (¬ (∃ k ∈ hivKeywords, k <:+: text.data.map Char.toLower) →
      ¬ (∃ k ∈ prepKeywords, k <:+: text.data.map Char.toLower) →
      ¬ (∃ k ∈ stdKeywords, k <:+: text.data.map Char.toLower) →
        classifyHealthcareIntent text = "general") := by
  refine ⟨fun h1 => ?_, fun h1 h2 => ?_, fun h1 h2 h3 => ?_, fun h1 h2 h3 => ?_⟩
  · simp [classifyHealthcareIntent, (keywordHit_iff _ _).mpr h1]
  · simp [classifyHealthcareIntent, keywordHit_false _ _ h1, (keywordHit_iff _ _).mpr h2]
  · simp [classifyHealthcareIntent, keywordHit_false _ _ h1, keywordHit_false _ _ h2,
      (keywordHit_iff _ _).mpr h3]
  · simp [classifyHealthcareIntent, keywordHit_false _ _ h1, keywordHit_false _ _ h2,
      keywordHit_false _ _ h3]

set_option maxRecDepth 100000 in
/-- Witness for C4: a message hitting the HIV, PrEP and STD keyword sets at
once classifies as HIV. -/
theorem C4_witness :
    (∃ k ∈ hivKeywords, k <:+: ("Does PrEP help with hiv and stds?".data.map Char.toLower)) ∧
    classifyHealthcareIntent "Does PrEP help with hiv and stds?" = "hiv" := by
  have h : ∃ k ∈ hivKeywords,
      k <:+: ("Does PrEP help with hiv and stds?".data.map Char.toLower) := by decide
  exact ⟨h, (C4_classifier_first_match _).1 h⟩

/-- C5: the composer returns the raw answer verbatim, then the language's
resource block exactly when the topic is not General, then the language's
disclaimer block; hence the result always ends with the disclaimer, contains
the resource marker for every non-General topic, and for General contains the
marker only if the raw answer already did. -/
theorem C5_composer_structure (raw intent language : String)
    (hi : intent = "hiv" ∨ intent = "prep" ∨ intent = "std" ∨ intent = "general") :
    (formatHealthcareResponse raw intent language =
      raw ++ (if intent = "general" then "" else resourcesFor language)
        ++ disclaimerFor language) ∧
    (disclaimerFor language).data <:+ (formatHealthcareResponse raw intent language).data ∧
    (intent ≠ "general" →
      (markerFor language).data <:+: (formatHealthcareResponse raw intent language).data) ∧
    (intent = "general" →
      (markerFor language).data <:+: (formatHealthcareResponse raw intent language).data →
      (markerFor language).data <:+: raw.data) := by
  have key : formatHealthcareResponse raw intent language =
      raw ++ (if intent = "general" then "" else resourcesFor language)
        ++ disclaimerFor language := by
    rcases hi with rfl | rfl | rfl | rfl
    · rw [format_specific raw "hiv" language (by decide), if_neg (by decide)]
    · rw [format_specific raw "prep" language (by decide), if_neg (by decide)]
    · rw [format_specific raw "std" language (by decide), if_neg (by decide)]
    · rw [format_general raw language, if_pos rfl]
      simp
  refine ⟨key, ?_, ?_, ?_⟩
  · rw [key, String.data_append]
    exact List.suffix_append _ _
  · intro hne
    have hres : formatHealthcareResponse raw intent language =
        raw ++ resourcesFor language ++ disclaimerFor language := by
      rw [key, if_neg hne]
    rw [hres, String.data_append, String.data_append]
    exact infixExtendRight _ (infixExtendLeft _ (marker_in_resources language))
  · intro hgen hocc
    have hgenEq : formatHealthcareResponse raw intent language =
        raw ++ disclaimerFor language := by
      rw [key, if_pos hgen]
      simp
    rw [hgenEq, String.data_append] at hocc
    exact markerNotCreatedByAppend (marker_no_newline language) (disclaimer_head language)
      (marker_not_in_disclaimer language) hocc

/-- Witness for C5 at a concrete raw answer, topic and language. -/
theorem C5_witness :
    (("hiv" : String) = "hiv" ∨ ("hiv" : String) = "prep" ∨ ("hiv" : String) = "std" ∨
      ("hiv" : String) = "general") ∧
    formatHealthcareResponse "RAW" "hiv" "en" =
      "RAW" ++ (if ("hiv" : String) = "general" then "" else resourcesFor "en")
        ++ disclaimerFor "en" :=
  ⟨Or.inl rfl, (C5_composer_structure "RAW" "hiv" "en" (Or.inl rfl)).1⟩

/-- C1 (counterexample): with an empty `CHANNEL_ACCESS_TOKEN`, a webhook
envelope with one Message event and no signature secret configured returns
HTTP 200 but makes zero outbound reply attempts rather than exactly one —
both sends gated by `if self.channel_access_token` are skipped. -/
theorem C1_counterexample :
    (handleWebhook ⟨"", "", "production"⟩ kbDefault "body"
      (some [(LineEvent.message "What is HIV?" "U1" "rt1", ⟨some "answer", false⟩)])
      []).response.statusCode = 200 ∧
    (handleWebhook ⟨"", "", "production"⟩ kbDefault "body"
      (some [(LineEvent.message "What is HIV?" "U1" "rt1", ⟨some "answer", false⟩)])
      []).sends = [] ∧
    processHealthcareMessage ⟨"", "", "production"⟩ kbDefault ⟨some "answer", false⟩
      "What is HIV?" "rt1" = [] :=
  ⟨rfl, rfl, rfl⟩

/-- C1 (amended): provided a channel access token is configured (non-empty),
every text Message event handled by the dispatcher produces exactly one call
to `_send_line_message`, whether the `try` body completes or raises at an
internal step; and a webhook envelope with one Message event and no signature
secret configured returns HTTP 200 with exactly one outbound reply
attempted. -/
theorem C1_amended_exactly_one_reply (env : Env) (kb : String → String → String)
    (o : EventOracle) (userMessage userId replyToken rawBody : String)
    (headers : List (String × String))
    (htoken : env.channelAccessToken ≠ "") (hsecret : env.channelSecret = "") :
    (processHealthcareMessage env kb o userMessage replyToken).length = 1 ∧
    (handleWebhook env kb rawBody
      (some [(LineEvent.message userMessage userId replyToken, o)])
      headers).response.statusCode = 200 ∧
    (handleWebhook env kb rawBody
      (some [(LineEvent.message userMessage userId replyToken, o)])
      headers).sends.length = 1 := by
  have h1 := processMessage_sends_one env kb o userMessage replyToken htoken
  have hrej : webhookRejectsSignature env rawBody headers = false := by
    simp [webhookRejectsSignature, hsecret]
  refine ⟨h1, ?_, ?_⟩
  · simp [handleWebhook, hrej]
  · simp [handleWebhook, hrej, runEvents, dispatchOne, h1]

/-- Witness for C1 (amended) at a concrete environment and event, on the
exception path. -/
theorem C1_witness :
    ((⟨"", "token", "production"⟩ : Env).channelAccessToken ≠ "" ∧
      (⟨"", "token", "production"⟩ : Env).channelSecret = "") ∧
    (processHealthcareMessage ⟨"", "token", "production"⟩ kbDefault ⟨none, true⟩
      "hello" "rt").length = 1 :=
  ⟨⟨by decide, rfl⟩,
    (C1_amended_exactly_one_reply ⟨"", "token", "production"⟩ kbDefault ⟨none, true⟩
      "hello" "U" "rt" "body" [] (by decide) rfl).1⟩

set_option maxRecDepth 100000 in
/-- C2 (counterexample): for the message `"hiv"` (Topic HIV, language `en`),
when an internal step raises, the fallback path dispatches the fixed fallback
text, which does not end with the disclaimer block — refuting the claim on
the internal-failure dispatch path it explicitly includes. -/
theorem C2_counterexample :
    classifyHealthcareIntent "hiv" = "hiv" ∧
    detectLanguage "hiv" = "en" ∧
    processHealthcareMessage ⟨"", "token", "production"⟩ kbDefault ⟨some "irrelevant", true⟩
      "hiv" "rt" = [⟨"rt", getFallbackResponse "en"⟩] ∧
    ¬ (disclaimerFor "en").data <:+ (getFallbackResponse "en").data :=
  ⟨rfl, rfl, rfl, by decide⟩

/-- C2 (amended): on the normal (non-raising) dispatch path, every outbound
text for a Message event whose topic is not General ends with the disclaimer
block in the detected language of the input and carries the resource block
placed before the disclaimer; on the internal-failure path the fixed
language-specific fallback text is dispatched instead, without those blocks. -/
theorem C2_amended_disclaimer_paths (env : Env) (kb : String → String → String)
    (o : EventOracle) (userMessage replyToken : String) :
    (o.raiseInTry = false → classifyHealthcareIntent userMessage ≠ "general" →
      ∀ s ∈ processHealthcareMessage env kb o userMessage replyToken,
        (∃ raw, s.text = raw ++ resourcesFor (detectLanguage userMessage)
            ++ disclaimerFor (detectLanguage userMessage)) ∧
        (disclaimerFor (detectLanguage userMessage)).data <:+ s.text.data ∧
        (markerFor (detectLanguage userMessage)).data <:+: s.text.data) ∧
    (o.raiseInTry = true →
      ∀ s ∈ processHealthcareMessage env kb o userMessage replyToken,
        s.text = getFallbackResponse (detectLanguage userMessage)) := by
  constructor
  · intro hok htopic s hs
    have hmem : classifyHealthcareIntent userMessage ∈ ["hiv", "prep", "std"] := by
      rcases classify_mem_topics userMessage with h | h | h | h
      · rw [h]; simp
      · rw [h]; simp
      · rw [h]; simp
      · exact absurd h htopic
    simp only [processHealthcareMessage, hok, Bool.false_eq_true, if_false] at hs
    by_cases ht : env.channelAccessToken ≠ ""
    · rw [if_pos hmem, if_pos ht] at hs
      rw [List.mem_singleton] at hs
      subst hs
      rw [format_specific _ _ _ hmem]
      refine ⟨⟨_, rfl⟩, ?_, ?_⟩
      · rw [String.data_append]
        exact List.suffix_append _ _
      · rw [String.data_append, String.data_append]
        exact infixExtendRight _
          (infixExtendLeft _ (marker_in_resources (detectLanguage userMessage)))
    · rw [if_neg ht] at hs
      exact absurd hs (List.not_mem_nil s)
  · intro hr s hs
    simp only [processHealthcareMessage, hr, if_true] at hs
    by_cases ht : env.channelAccessToken ≠ ""
    · rw [if_pos ht, List.mem_singleton] at hs
      subst hs
      rfl
    · rw [if_neg ht] at hs
      exact absurd hs (List.not_mem_nil s)

/-- Witness for C2 (amended) on the normal path at a concrete HIV message. -/
theorem C2_witness :
    (⟨(none : Option String), false⟩ : EventOracle).raiseInTry = false ∧
    classifyHealthcareIntent "hiv" ≠ "general" ∧
    ∀ s ∈ processHealthcareMessage ⟨"", "token", "production"⟩ kbDefault
        ⟨none, false⟩ "hiv" "rt",
      (∃ raw, s.text = raw ++ resourcesFor (detectLanguage "hiv")
          ++ disclaimerFor (detectLanguage "hiv")) ∧
      (disclaimerFor (detectLanguage "hiv")).data <:+ s.text.data ∧
      (markerFor (detectLanguage "hiv")).data <:+: s.text.data := by
  refine ⟨rfl, by decide, ?_⟩
  exact (C2_amended_disclaimer_paths ⟨"", "token", "production"⟩ kbDefault
    ⟨none, false⟩ "hiv" "rt").1 rfl (by decide)

/-- C6: with a configured channel secret, a missing or failing signature makes
the webhook route return HTTP 400 with no event processing: the body is never
parsed (`parseAttempted = false`), the dispatcher is never invoked, and no
outbound reply is attempted. -/
theorem C6_bad_signature_rejected (env : Env) (kb : String → String → String)
    (rawBody : String) (parsed : Option (List (LineEvent × EventOracle)))
    (headers : List (String × String))
    (hsecret : env.channelSecret ≠ "")
    (hfail : dictGet headers "x-line-signature" "" = "" ∨
      verifySignature env.channelSecret rawBody (dictGet headers "x-line-signature" "") = false) :
    handleWebhook env kb rawBody parsed headers =
      ⟨⟨400, jsonInvalidSignature⟩, [], [], false⟩ :=
  handleWebhook_400 env kb rawBody parsed headers hsecret hfail

/-- Witness for C6: a configured secret and no signature header. -/
theorem C6_witness :
    ((⟨"secret", "token", "production"⟩ : Env).channelSecret ≠ "" ∧
      dictGet [] "x-line-signature" "" = "") ∧
    handleWebhook ⟨"secret", "token", "production"⟩ kbDefault "body"
      (some [(LineEvent.message "hiv" "U" "rt", ⟨none, false⟩)]) [] =
      ⟨⟨400, jsonInvalidSignature⟩, [], [], false⟩ :=
  ⟨⟨by decide, rfl⟩,
    C6_bad_signature_rejected ⟨"secret", "token", "production"⟩ kbDefault "body"
      (some [(LineEvent.message "hiv" "U" "rt", ⟨none, false⟩)]) [] (by decide) (Or.inl rfl)⟩

/-- C7: when the signature gate passes, a well-formed envelope (every event a
Message or Follow event) has the dispatcher invoked once per event,
sequentially in envelope order; the per-event oracles are arbitrary, so a
failure during one event's processing does not abort the others, the response
is HTTP 200 once all events have been attempted regardless of each outcome,
and the reply attempts are the per-event attempts concatenated in order. -/
theorem C7_per_event_dispatch (env : Env) (kb : String → String → String)
    (rawBody : String) (events : List (LineEvent × EventOracle))
    (headers : List (String × String))
    (hgate : webhookRejectsSignature env rawBody headers = false)
    (hwf : ∀ eo ∈ events, eo.1 ≠ LineEvent.other) :
    (handleWebhook env kb rawBody (some events) headers).response.statusCode = 200 ∧
    (handleWebhook env kb rawBody (some events) headers).dispatched = events.map Prod.fst ∧
    (handleWebhook env kb rawBody (some events) headers).sends =
      (events.map (fun eo => (dispatchOne env kb eo).1)).flatten := by
  refine ⟨?_, ?_, ?_⟩ <;>
    simp [handleWebhook, hgate, runEvents_dispatched env kb events hwf, runEvents_sends]

/-- Witness for C7: a two-event envelope, the first event failing
internally, both dispatched, HTTP 200. -/
theorem C7_witness :
    webhookRejectsSignature ⟨"", "token", "production"⟩ "body" [] = false ∧
    (∀ eo ∈ [(LineEvent.message "hello" "U" "r1", (⟨none, true⟩ : EventOracle)),
        (LineEvent.follow "r2", ⟨none, false⟩)], eo.1 ≠ LineEvent.other) ∧
    (handleWebhook ⟨"", "token", "production"⟩ kbDefault "body"
      (some [(LineEvent.message "hello" "U" "r1", ⟨none, true⟩),
        (LineEvent.follow "r2", ⟨none, false⟩)]) []).dispatched =
      [LineEvent.message "hello" "U" "r1", LineEvent.follow "r2"] := by
  refine ⟨rfl, by decide, ?_⟩
  exact (C7_per_event_dispatch ⟨"", "token", "production"⟩ kbDefault "body"
    [(LineEvent.message "hello" "U" "r1", ⟨none, true⟩),
      (LineEvent.follow "r2", ⟨none, false⟩)] [] rfl (by decide)).2.1

/-- C8 (counterexample): a malformed body yields HTTP 500 with the fixed body
text `error: Webhook processing failed` under `ENVIRONMENT = production` and
under `ENVIRONMENT = development` alike; the claimed detailed non-production
message never appears, because the inner `except` of `_handle_webhook`
catches the parse error before the environment-sensitive outer handler. -/
theorem C8_counterexample :
    (handleWebhook ⟨"", "token", "production"⟩ kbDefault "not json" none []).response =
      ⟨500, jsonWebhookFailed⟩ ∧
    (handleWebhook ⟨"", "token", "development"⟩ kbDefault "not json" none []).response =
      ⟨500, jsonWebhookFailed⟩ ∧
    jsonWebhookFailed = "\x7b\"error\": \"Webhook processing failed\"\x7d" :=
  ⟨rfl, rfl, rfl⟩

/-- C8 (amended): when the body cannot be parsed as a webhook envelope and the
signature gate passes, the route returns HTTP 500 whose body is the fixed
message `error: Webhook processing failed`, irrespective of the configured
environment. -/
theorem C8_amended_fixed_500 (env : Env) (kb : String → String → String)
    (rawBody : String) (headers : List (String × String))
    (hgate : webhookRejectsSignature env rawBody headers = false) :
    handleWebhook env kb rawBody none headers = ⟨⟨500, jsonWebhookFailed⟩, [], [], true⟩ := by
  simp [handleWebhook, hgate]

/-- Witness for C8 (amended) at a concrete environment. -/
theorem C8_witness :
    webhookRejectsSignature ⟨"", "token", "production"⟩ "not json" [] = false ∧
    handleWebhook ⟨"", "token", "production"⟩ kbDefault "not json" none [] =
      ⟨⟨500, jsonWebhookFailed⟩, [], [], true⟩ :=
  ⟨rfl, C8_amended_fixed_500 ⟨"", "token", "production"⟩ kbDefault "not json" [] rfl⟩

/-- C9 (counterexample): with secret `testsecret` and the empty-envelope JSON
body (`events` bound to the empty list, so `json.loads` succeeds and the event
loop is skipped), the correct signature presented under the header name
`X-Line-Signature` is rejected with HTTP 400, while the same value under
`x-line-signature` passes with HTTP 200: the dictionary lookup is
case-sensitive, refuting case-insensitive behavior of the handler. -/
theorem C9_counterexample :
    (handleWebhook ⟨"testsecret", "token", "production"⟩ kbDefault "\x7b\"events\": []\x7d" (some [])
      [("X-Line-Signature",
        base64Encode (hmacSha256 (utf8Encode "testsecret") (utf8Encode "\x7b\"events\": []\x7d")))]).response.statusCode
      = 400 ∧
    (handleWebhook ⟨"testsecret", "token", "production"⟩ kbDefault "\x7b\"events\": []\x7d" (some [])
      [("x-line-signature",
        base64Encode (hmacSha256 (utf8Encode "testsecret") (utf8Encode "\x7b\"events\": []\x7d")))]).response.statusCode
      = 200 := by
  constructor
  · rfl
  · have hne : base64Encode (hmacSha256 (utf8Encode "testsecret") (utf8Encode "\x7b\"events\": []\x7d")) ≠ "" :=
      base64_hmac_ne_empty _ _
    have hb : (base64Encode (hmacSha256 (utf8Encode "testsecret") (utf8Encode "\x7b\"events\": []\x7d")) == "")
        = false := beq_eq_false_iff_ne.mpr hne
    have hver : verifySignature "testsecret" "\x7b\"events\": []\x7d"
        (base64Encode (hmacSha256 (utf8Encode "testsecret") (utf8Encode "\x7b\"events\": []\x7d"))) = true :=
      beq_self_eq_true _
    have hrej : webhookRejectsSignature ⟨"testsecret", "token", "production"⟩ "\x7b\"events\": []\x7d"
        [("x-line-signature",
          base64Encode (hmacSha256 (utf8Encode "testsecret") (utf8Encode "\x7b\"events\": []\x7d")))] = false := by
      simp [webhookRejectsSignature, dictGet, hb, hver]
    simp [handleWebhook, hrej, runEvents]

/-- C9 (amended): the handler looks the signature up under the exact lowercase
name `x-line-signature`; a request carrying the value only under any other
header-name spelling is processed exactly like a request with no signature
header at all, and with a configured secret it is rejected with HTTP 400 (the
platform is relied upon to deliver lowercase header names). -/
theorem C9_amended_exact_header_lookup (env : Env) (kb : String → String → String)
    (rawBody : String) (parsed : Option (List (LineEvent × EventOracle)))
    (name val : String) (hname : name ≠ "x-line-signature") :
    handleWebhook env kb rawBody parsed [(name, val)] =
      handleWebhook env kb rawBody parsed [] ∧
    (env.channelSecret ≠ "" →
      (handleWebhook env kb rawBody parsed [(name, val)]).response.statusCode = 400) := by
  have hb : (name == "x-line-signature") = false := beq_eq_false_iff_ne.mpr hname
  have hd : dictGet [(name, val)] "x-line-signature" "" = "" := by
    simp [dictGet, List.find?, hb]
  constructor
  · have hdr : dictGet ([] : List (String × String)) "x-line-signature" "" = "" := rfl
    simp only [handleWebhook, webhookRejectsSignature, hd, hdr]
  · intro hsecret
    rw [handleWebhook_400 env kb rawBody parsed [(name, val)] hsecret (Or.inl hd)]

/-- Witness for C9 (amended) with the capitalized header name. -/
theorem C9_witness :
    ("X-Line-Signature" : String) ≠ "x-line-signature" ∧
    handleWebhook ⟨"secret", "token", "production"⟩ kbDefault "body" (some [])
        [("X-Line-Signature", "whatever")] =
      handleWebhook ⟨"secret", "token", "production"⟩ kbDefault "body" (some []) [] :=
  ⟨by decide,
    (C9_amended_exact_header_lookup ⟨"secret", "token", "production"⟩ kbDefault "body"
      (some []) "X-Line-Signature" "whatever" (by decide)).1⟩

/-- C10: with an empty `CHANNEL_ACCESS_TOKEN` and a passing signature gate, no
outbound reply attempt is made for any event of the envelope — text Message,
Follow, and internal-failure fallback paths alike (`_send_line_message` is
never called) — while event processing completes and the webhook responds
HTTP 200. -/
theorem C10_no_token_no_sends (env : Env) (kb : String → String → String)
    (rawBody : String) (events : List (LineEvent × EventOracle))
    (headers : List (String × String))
    (htoken : env.channelAccessToken = "")
    (hgate : webhookRejectsSignature env rawBody headers = false) :
    (handleWebhook env kb rawBody (some events) headers).sends = [] ∧
    (handleWebhook env kb rawBody (some events) headers).response.statusCode = 200 := by
  have hsends : (runEvents env kb events).1 = [] := by
    induction events with
    | nil => rfl
    | cons eo rest ih =>
        have hone : (dispatchOne env kb eo).1 = [] := by
          cases h : eo.1 with
          | message t u r =>
              simp [dispatchOne, h, processMessage_no_token env kb eo.2 t r htoken]
          | follow r => simp [dispatchOne, h, welcome_no_token env r htoken]
          | other => simp [dispatchOne, h]
        simp [runEvents, hone, ih]
  constructor
  · simp [handleWebhook, hgate, hsends]
  · simp [handleWebhook, hgate]

/-- Witness for C10: an envelope with a message event (raising internally), a
follow event, and no token configured: zero reply attempts, HTTP 200. -/
theorem C10_witness :
    (⟨"", "", "production"⟩ : Env).channelAccessToken = "" ∧
    webhookRejectsSignature ⟨"", "", "production"⟩ "body" [] = false ∧
    (handleWebhook ⟨"", "", "production"⟩ kbDefault "body"
      (some [(LineEvent.message "hiv" "U" "r1", ⟨none, true⟩),
        (LineEvent.follow "r2", ⟨none, false⟩)]) []).sends = [] :=
  ⟨rfl, rfl,
    (C10_no_token_no_sends ⟨"", "", "production"⟩ kbDefault "body"
      [(LineEvent.message "hiv" "U" "r1", ⟨none, true⟩),
        (LineEvent.follow "r2", ⟨none, false⟩)] [] rfl rfl).1⟩

end LineBot
